import Mathlib

/-!
Shallow embedding of `src/src/editors/playgroundController.ts` (the playground
execution coordinator of the extension) and proofs about it.

Modelling conventions:
- JavaScript strings are Lean `String`; `undefined`-able fields are `Option`.
- Asynchronous methods are pure functions whose suspension results (the user's
  confirmation choice, the cancellation flag, the worker's `executeAll`
  response) are passed in as explicit arguments.
- Observable calls to collaborators (language-server worker, output channel,
  message boxes, telemetry, code-lens provider) are recorded as an ordered
  list of `Effect` values, in the order the source issues them.
- A method's promise result is `Option Bool` / `Option ExecuteAllResult`:
  `none` models a promise that never resolves (an unhandled rejection inside
  the promise executor), `some v` a promise resolved with `v`.
-/

set_option linter.unusedVariables false

namespace Playground

/-- A document position, after `vscode.Position` (line and UTF-16 column). -/
structure Pos where
  line : Nat
  character : Nat
deriving DecidableEq

/-- A selection range, after `vscode.Selection` (`start`/`end` positions). -/
structure Selection where
  start : Pos
  «end» : Pos
deriving DecidableEq

/-- JavaScript `String.prototype.trim`: strip whitespace from both ends. -/
def jsTrim (s : String) : String :=
  String.mk (((s.data.dropWhile Char.isWhitespace).reverse.dropWhile Char.isWhitespace).reverse)

/-- JavaScript truthiness of a possibly-`undefined` string field:
`undefined` and the empty string are falsy. -/
def truthyStr : Option String → Bool
  | none => false
  | some s => !(s == "")

/-- A text document, after `vscode.TextDocument`: a language id and the
document text as a list of lines (without terminators). -/
structure TextDocument where
  languageId : String
  lines : List String
deriving DecidableEq

/-- `document.lineAt(n).text` (out-of-range lines read as empty). -/
def TextDocument.lineAt (d : TextDocument) (n : Nat) : String :=
  d.lines.getD n ""

/-- `document.getText()` with no argument: the whole document text. -/
def TextDocument.getText (d : TextDocument) : String :=
  String.intercalate "\n" d.lines

/-- Slice one line between two columns (clamping, as vscode validates). -/
def lineSlice (line : String) (a b : Nat) : String :=
  String.mk ((line.data.take b).drop a)

/-- `document.getText(range)`: the text covered by a range. -/
def TextDocument.getTextInRange (d : TextDocument) (r : Selection) : String :=
  if r.start.line = r.«end».line then
    lineSlice (d.lineAt r.start.line) r.start.character r.«end».character
  else
    String.intercalate "\n"
      ([String.mk ((d.lineAt r.start.line).data.drop r.start.character)]
        ++ ((d.lines.drop (r.start.line + 1)).take (r.«end».line - r.start.line - 1))
        ++ [String.mk ((d.lineAt r.«end».line).data.take r.«end».character)])

/-- A text editor, after `vscode.TextEditor`: its document and selections. -/
structure Editor where
  document : TextDocument
  selections : List Selection
deriving DecidableEq

/-- The free-form driver-options bag (`model.driverOptions`); `[]` is `{}`. -/
abbrev DriverOptions := List (String × String)

/-- One record of a playground result (`{ content: string }`). -/
structure ResultRecord where
  content : String
deriving DecidableEq

/-- `ExecuteAllResult` from `utils/types`: an ordered list of records, or
`undefined` — the "no result" sentinel for cancellation / total failure. -/
abbrev ExecuteAllResult := Option (List ResultRecord)

/-- The attributes of the active connection model used by
`connectToServiceProvider` (`getAttributes({ derived: true })`). -/
structure ConnectionModel where
  driverUrlWithSsh : String
  driverOptions : Option DriverOptions
deriving DecidableEq

/-- The mutable fields of `PlaygroundController` (source lines 22-34) that
the claims depend on. -/
structure PlaygroundController where
  _activeTextEditor : Option Editor
  _connectionString : Option String
  _connectionOptions : Option DriverOptions
  _selectedText : Option String
  _codeToEvaluate : String
  _isPartialRun : Bool
deriving DecidableEq

/-- One observable call to a collaborator, recorded in program order. -/
inductive Effect where
  | workerExecuteAll (code : String)
  | workerCancelAll
  | outputClear
  | outputAppendLine (line : String)
  | outputShow
  | showErrorMessage (msg : String)
  | showInformationMessage (msg : String) (modal : Bool)
  | telemetryTrack (result : Option (List ResultRecord)) (isPartialRun : Bool) (isError : Bool)
  | codeLensRefresh (placement : Option Nat)
deriving DecidableEq

/-- Events on the worker connection, for the connection-rebinding trace. -/
inductive ConnEvent where
  | disconnectRequested
  | disconnectResolved (ok : Bool)
  | connectRequested (connectionString : String) (connectionOptions : DriverOptions)
      (extensionPath : String)
  | connectResolved (ok : Bool)
  | codeLensRefreshed
deriving DecidableEq

/-- The ordering the selection handler sorts by: ascending start line.  The
source comparator `(a, b) => (a.start.line > b.start.line ? 1 : -1)` orders
any two selections with distinct start lines this way. -/
def selectionLe (a b : Selection) : Prop := a.start.line ≤ b.start.line

instance : DecidableRel selectionLe := fun a b => Nat.decLe a.start.line b.start.line
instance : IsTotal Selection selectionLe := ⟨fun a b => Nat.le_total a.start.line b.start.line⟩
instance : IsTrans Selection selectionLe := ⟨fun a b c => Nat.le_trans⟩

/-- Strict ascending-start-line order (what "sorted ascending" means when all
start lines are distinct). -/
def selectionLt (a b : Selection) : Prop := a.start.line < b.start.line

instance : DecidableRel selectionLt := fun a b => Nat.decLt a.start.line b.start.line
instance : IsAntisymm Selection selectionLt := ⟨fun a b h h2 => absurd h2 (Nat.lt_asymm h)⟩

/-- `selections.sort((a, b) => (a.start.line > b.start.line ? 1 : -1))`
(source lines 100 and 117). -/
def sortSelections (l : List Selection) : List Selection :=
  List.insertionSort selectionLe l

/-- `getAllText` (source lines 232-234): `activeTextEditor?.document.getText() || ''`. -/
def PlaygroundController.getAllText (c : PlaygroundController) : String :=
  match c._activeTextEditor with
  | some e => e.document.getText
  | none => ""

/-- `getSelectedText` (source lines 236-238):
`activeTextEditor?.document.getText(selection) || ''`. -/
def PlaygroundController.getSelectedText (c : PlaygroundController) (sel : Selection) : String :=
  match c._activeTextEditor with
  | some e => e.document.getTextInRange sel
  | none => ""

/-- The text the selection-change handler stores in `_selectedText`
(source lines 99-108): sort the selections ascending by start line, map each
through `getSelectedText`, join with a newline. -/
def resolveSelectedText (c : PlaygroundController) (selections : List Selection) : String :=
  String.intercalate "\n" ((sortSelections selections).map (fun item => c.getSelectedText item))

/-- `showCodeLensForSelection` (source lines 113-130).  Returns the code-lens
refresh it issues: `some line` places the partial-execution lens at
`new Range(line, 0, line, 0)`, `none` is the clearing `refresh()`.
When the active editor exists but has an empty selections array the source
would throw on `selections[0]`; the model returns line 0, a case no claim
touches (the handler only calls this with a nonempty selections array). -/
def PlaygroundController.showCodeLensForSelection (c : PlaygroundController)
    (item : Selection) : Effect :=
  let selectedText := jsTrim (c.getSelectedText item)
  let lastSelectedLine :=
    match c._activeTextEditor with
    | some e => jsTrim (e.document.lineAt item.«end».line)
    | none => ""
  let selections :=
    match c._activeTextEditor with
    | some e => sortSelections e.selections
    | none => []
  let firstLine :=
    match selections with
    | x :: _ => x.start.line
    | [] => 0
  if selectedText.length > 0 && selectedText.length ≥ lastSelectedLine.length then
    Effect.codeLensRefresh (some firstLine)
  else
    Effect.codeLensRefresh none

/-- The `onDidChangeTextEditorSelection` handler (source lines 92-110).
`eventEditor` is the event's `textEditor` + `selections`; text is read back
through `this._activeTextEditor` exactly as the source closures do.  The
code-lens side effect fires for the last element of the sorted array
(`index === editor.selections.length - 1`). -/
def onDidChangeTextEditorSelection (c : PlaygroundController) (eventEditor : Editor) :
    PlaygroundController × List Effect :=
  if eventEditor.document.languageId == "mongodb" then
    let sorted := sortSelections eventEditor.selections
    let text := String.intercalate "\n" (sorted.map (fun item => c.getSelectedText item))
    let c2 := { c with _selectedText := some text }
    let lensEffects :=
      match sorted.getLast? with
      | some item => [c.showCodeLensForSelection item]
      | none => []
    (c2, lensEffects)
  else
    (c, [])

/-- `connectToServiceProvider` (source lines 136-156): read the active
connection model; if it has a truthy `driverUrlWithSsh`, cache the connection
string and driver options and issue the worker connect request; otherwise
clear both caches and issue a worker disconnect. -/
def connectToServiceProvider (c : PlaygroundController) (model : Option ConnectionModel)
    (extensionPath : String) : PlaygroundController × List ConnEvent :=
  match model with
  | some m =>
    if !(m.driverUrlWithSsh == "") then
      ({ c with _connectionString := some m.driverUrlWithSsh,
                _connectionOptions := some (m.driverOptions.getD []) },
       [ConnEvent.connectRequested m.driverUrlWithSsh (m.driverOptions.getD []) extensionPath])
    else
      ({ c with _connectionString := none, _connectionOptions := none },
       [ConnEvent.disconnectRequested])
  | none =>
    ({ c with _connectionString := none, _connectionOptions := none },
     [ConnEvent.disconnectRequested])

/-- Modelled from the spec: the dispatch of the
`DataServiceEventTypes.ACTIVE_CONNECTION_CHANGED` event.  The emitting side
(`ConnectionController.addEventListener`, `connectionController.ts`) is not
under `src/`; per the spec's concurrency model (§5: single-threaded
event-loop scheduling, with the worker connect/disconnect waits as suspension
points) the two listeners registered by the constructor (source lines 68-81)
are invoked synchronously in registration order, each running to its first
`await`; the two pending worker promises then resolve in either order
(`disconnectResolvesFirst` picks the schedule).  Listener 1 (lines 68-73)
issues the worker disconnect and suspends; listener 2 (lines 75-81) runs
`connectToServiceProvider` — issuing its worker request synchronously — and
suspends, refreshing the connection code lens after its promise resolves. -/
def activeConnectionChanged (c : PlaygroundController) (model : Option ConnectionModel)
    (extensionPath : String) (discOk l2Ok : Bool) (disconnectResolvesFirst : Bool) :
    PlaygroundController × List ConnEvent :=
  let l1sync := [ConnEvent.disconnectRequested]
  let l2 := connectToServiceProvider c model extensionPath
  let l1resume := [ConnEvent.disconnectResolved discOk]
  let l2resume :=
    (match model with
     | some m =>
       if !(m.driverUrlWithSsh == "") then [ConnEvent.connectResolved l2Ok]
       else [ConnEvent.disconnectResolved l2Ok]
     | none => [ConnEvent.disconnectResolved l2Ok]) ++ [ConnEvent.codeLensRefreshed]
  (l2.1,
   l1sync ++ l2.2 ++
     (if disconnectResolvesFirst then l1resume ++ l2resume else l2resume ++ l1resume))

/-- The collaborator responses a single run can observe, passed to the run
functions as explicit arguments. -/
structure RunEnv where
  /-- The `mdb.confirmRunAll` configuration value (compared `=== true`). -/
  confirmRunAll : Bool
  /-- The user's choice on the confirmation modal; the Yes button yields
  `some "Yes"`, dismissal yields `none`. -/
  confirmResponse : Option String
  /-- `ConnectionController.getActiveConnectionName()` at run time. -/
  activeConnectionName : String
  /-- `ConnectionController.getActiveConnectionModel()` as it stands at
  dispatch time — available to be re-read by the run path (the same call
  `connectToServiceProvider` makes at line 137), recorded here to state
  whether the run path consults it. -/
  activeModel : Option ConnectionModel
  /-- Whether the user hits cancel on the progress notification while the
  worker call is in flight. -/
  cancelled : Bool
  /-- The worker's eventual `executeAll` response. -/
  workerResult : ExecuteAllResult
deriving DecidableEq

/-- The confirmation-modal text (source line 296). -/
def confirmationMessage (name : String) : String :=
  "Are you sure you want to run this playground against " ++ name ++
    "? This confirmation can be disabled in the extension settings."

/-- `evaluate` (source lines 216-230): dispatch `executeAll` to the worker,
then record telemetry with the result, the cached `_isPartialRun` flag, and
`isError := result ? false : true` (true exactly for the `undefined`
sentinel; an empty record list is truthy). -/
def PlaygroundController.evaluate (c : PlaygroundController)
    (workerResult : ExecuteAllResult) : ExecuteAllResult × List Effect :=
  (workerResult,
   [Effect.workerExecuteAll c._codeToEvaluate,
    Effect.telemetryTrack workerResult c._isPartialRun workerResult.isNone])

/-- `evaluateWithCancelModal` (source lines 240-277).  With no truthy cached
connection string the returned promise rejects (`.error`).  Otherwise the
progress body dispatches `evaluate` and awaits it; if the user cancels during
that await, the cancel callback (lines 256-263) issues `cancelAll`, clears
and shows the output channel, and resolves the promise with `undefined`
immediately — the worker's eventual response then only feeds the telemetry
call inside the still-running `evaluate`.  Without cancellation the promise
resolves with the worker result. -/
def evaluateWithCancelModal (c : PlaygroundController) (cancelled : Bool)
    (workerResult : ExecuteAllResult) : Except String (ExecuteAllResult × List Effect) :=
  if !(truthyStr c._connectionString) then
    Except.error "Please connect to a database before running a playground."
  else if cancelled then
    Except.ok (none,
      [Effect.workerExecuteAll c._codeToEvaluate,
       Effect.workerCancelAll, Effect.outputClear, Effect.outputShow,
       Effect.telemetryTrack workerResult c._isPartialRun workerResult.isNone])
  else
    Except.ok (c.evaluate workerResult)

/-- The result-rendering tail of `evaluatePlayground` (source lines 306-321):
the falsy "no result" sentinel clears and shows the output channel and
resolves `false`; a record list clears once, appends every record's
`content` in order, shows the channel, and resolves `true`. -/
def renderExecuteAllResult : ExecuteAllResult → Option Bool × List Effect
  | none => (some false, [Effect.outputClear, Effect.outputShow])
  | some records =>
    (some true,
     [Effect.outputClear]
       ++ records.map (fun r => Effect.outputAppendLine r.content)
       ++ [Effect.outputShow])

/-- `evaluatePlayground` (source lines 279-322).  Guard: a falsy cached
`_connectionString` shows the connect-first error and resolves `false`.
With `confirmRunAll === true` the confirmation modal (naming the active
connection) is shown; any response other than `Yes` resolves `false`.
Otherwise the run goes through `evaluateWithCancelModal` and the result is
rendered.  If `evaluateWithCancelModal` rejects, the `await` throws inside
the promise executor and the promise never resolves (`none`). -/
def evaluatePlayground (c : PlaygroundController) (env : RunEnv) : Option Bool × List Effect :=
  if !(truthyStr c._connectionString) then
    (some false, [Effect.showErrorMessage "Please connect to a database before running a playground."])
  else
    let confirmEffects :=
      if env.confirmRunAll then
        [Effect.showInformationMessage (confirmationMessage env.activeConnectionName) true]
      else []
    if env.confirmRunAll && !(env.confirmResponse == some "Yes") then
      (some false, confirmEffects)
    else
      match evaluateWithCancelModal c env.cancelled env.workerResult with
      | Except.error _ => (none, confirmEffects)
      | Except.ok (result, evalEffects) =>
        let rendered := renderExecuteAllResult result
        (rendered.1, confirmEffects ++ evalEffects ++ rendered.2)

/-- The guard shared by the three run entry points (source lines 325-334,
357-366, 375-384): no active editor, or one whose language is not
`mongodb`. -/
def noPlaygroundOpen (c : PlaygroundController) : Bool :=
  match c._activeTextEditor with
  | none => true
  | some e => !(e.document.languageId == "mongodb")

/-- `selections.length === 1 && this.getSelectedText(selections[0]) === ''`
(source lines 341 and 391). -/
def singleEmptySelection (c : PlaygroundController) (selections : List Selection) : Bool :=
  match selections with
  | [only] => c.getSelectedText only == ""
  | _ => false

/-- `runSelectedPlaygroundBlocks` (source lines 324-354).  With a single
empty selection it shows an informational message and resolves `true`
without running.  A truthy `_selectedText` switches the run to partial and
stores it as the code to evaluate; otherwise both fields keep their previous
values.  Then `evaluatePlayground` runs on the resulting state. -/
def runSelectedPlaygroundBlocks (c : PlaygroundController) (env : RunEnv) :
    Option Bool × PlaygroundController × List Effect :=
  if noPlaygroundOpen c then
    (some false, c,
     [Effect.showErrorMessage "Please open a \x27.mongodb\x27 playground file before running it."])
  else
    let selections := (c._activeTextEditor.map Editor.selections).getD []
    if singleEmptySelection c selections then
      (some true, c,
       [Effect.showInformationMessage "Please select one or more lines in the playground." false])
    else
      let c2 :=
        if truthyStr c._selectedText then
          { c with _isPartialRun := true, _codeToEvaluate := c._selectedText.getD "" }
        else c
      let r := evaluatePlayground c2 env
      (r.1, c2, r.2)

/-- `runAllPlaygroundBlocks` (source lines 356-372). -/
def runAllPlaygroundBlocks (c : PlaygroundController) (env : RunEnv) :
    Option Bool × PlaygroundController × List Effect :=
  if noPlaygroundOpen c then
    (some false, c,
     [Effect.showErrorMessage "Please open a \x27.mongodb\x27 playground file before running it."])
  else
    let c2 := { c with _isPartialRun := false, _codeToEvaluate := c.getAllText }
    let r := evaluatePlayground c2 env
    (r.1, c2, r.2)

/-- `runAllOrSelectedPlaygroundBlocks` (source lines 374-401).  A single
empty selection falls back to a full run; a truthy `_selectedText` switches
to a partial run of that stored text; otherwise `_isPartialRun` and
`_codeToEvaluate` keep their previous values and `evaluatePlayground`
dispatches whatever they held before. -/
def runAllOrSelectedPlaygroundBlocks (c : PlaygroundController) (env : RunEnv) :
    Option Bool × PlaygroundController × List Effect :=
  if noPlaygroundOpen c then
    (some false, c,
     [Effect.showErrorMessage "Please open a \x27.mongodb\x27 playground file before running it."])
  else
    let selections := (c._activeTextEditor.map Editor.selections).getD []
    let c2 :=
      if singleEmptySelection c selections then
        { c with _isPartialRun := false, _codeToEvaluate := c.getAllText }
      else if truthyStr c._selectedText then
        { c with _isPartialRun := true, _codeToEvaluate := c._selectedText.getD "" }
      else c
    let r := evaluatePlayground c2 env
    (r.1, c2, r.2)

/-! ## Observation helpers over effect traces -/

/-- Whether an effect is a worker `executeAll` dispatch. -/
def isWorkerExecuteAll : Effect → Bool
  | Effect.workerExecuteAll _ => true
  | _ => false

/-- Whether an effect is a telemetry record. -/
def isTelemetry : Effect → Bool
  | Effect.telemetryTrack _ _ _ => true
  | _ => false

/-- Whether an effect mutates the output surface (clear or append). -/
def mutatesOutput : Effect → Bool
  | Effect.outputClear => true
  | Effect.outputAppendLine _ => true
  | _ => false

/-- Whether an effect is the output-channel clear. -/
def isOutputClear : Effect → Bool
  | Effect.outputClear => true
  | _ => false

/-- The output surface (list of rendered lines) after one effect. -/
def applyOutput (surface : List String) : Effect → List String
  | Effect.outputClear => []
  | Effect.outputAppendLine s => surface ++ [s]
  | _ => surface

/-- The output surface after a whole effect trace. -/
def runOutput (surface : List String) (effs : List Effect) : List String :=
  effs.foldl applyOutput surface

/-- How many times a trace clears the output surface. -/
def clearCount (effs : List Effect) : Nat :=
  effs.countP isOutputClear

/-- How many `executeAll` dispatches a trace contains. -/
def executeAllCount (effs : List Effect) : Nat :=
  effs.countP isWorkerExecuteAll

deriving instance DecidableEq for Except

/-! ## Concrete fixtures used by witnesses and counterexamples -/

/-- A six-line playground document. -/
def docW : TextDocument :=
  { languageId := "mongodb",
    lines := ["// header", "", "db.a.find()", "", "", "db.b.find()"] }

/-- A selection covering line 5 (created first, alt-click order). -/
def selLine5 : Selection := { start := ⟨5, 0⟩, «end» := ⟨5, 11⟩ }

/-- A selection covering line 2 (created second). -/
def selLine2 : Selection := { start := ⟨2, 0⟩, «end» := ⟨2, 11⟩ }

/-- An editor over `docW` with the two selections in click order. -/
def edW : Editor := { document := docW, selections := [selLine5, selLine2] }

/-- A controller with an active mongodb editor and a bound connection. -/
def cW : PlaygroundController :=
  { _activeTextEditor := some edW,
    _connectionString := some "mongodb://localhost:27017",
    _connectionOptions := some [],
    _selectedText := none,
    _codeToEvaluate := "1+1",
    _isPartialRun := false }

/-- A run with confirmation disabled, no cancellation, a two-record result. -/
def envPlain : RunEnv :=
  { confirmRunAll := false, confirmResponse := none,
    activeConnectionName := "localhost",
    activeModel := some { driverUrlWithSsh := "mongodb://localhost:27017", driverOptions := none },
    cancelled := false,
    workerResult := some [{ content := "1" }, { content := "2" }] }

/-! ## Claim theorems -/

/-- C2: for every run attempted while no connection binding is active
(`_connectionString` falsy), `evaluatePlayground` resolves `false` after the
one user-visible error message — the worker's `executeAll` is never invoked
and the output surface is not mutated — and the inner
`evaluateWithCancelModal` would reject outright. -/
theorem noConnection_rejects_without_worker (c : PlaygroundController) (env : RunEnv)
    (h : truthyStr c._connectionString = false) :
    evaluatePlayground c env =
      (some false,
       [Effect.showErrorMessage "Please connect to a database before running a playground."]) ∧
    (∀ e ∈ (evaluatePlayground c env).2,
      isWorkerExecuteAll e = false ∧ mutatesOutput e = false) ∧
    (∃ msg, evaluateWithCancelModal c env.cancelled env.workerResult = Except.error msg) := by
  have he : evaluatePlayground c env =
      (some false,
       [Effect.showErrorMessage "Please connect to a database before running a playground."]) := by
    simp [evaluatePlayground, h]
  refine ⟨he, ?_, ?_⟩
  · rw [he]
    intro e he2
    simp only [List.mem_singleton] at he2
    subst he2
    exact ⟨rfl, rfl⟩
  · exact ⟨"Please connect to a database before running a playground.",
      by simp [evaluateWithCancelModal, h]⟩

theorem noConnection_rejects_without_worker_witness :
    truthyStr ({ cW with _connectionString := none } : PlaygroundController)._connectionString = false ∧
    evaluatePlayground { cW with _connectionString := none } envPlain =
      (some false,
       [Effect.showErrorMessage "Please connect to a database before running a playground."]) :=
  ⟨by decide,
   (noConnection_rejects_without_worker { cW with _connectionString := none } envPlain (by decide)).1⟩

/-- C3: cancelling a running evaluation sends `cancelAll` to the worker,
clears (and shows) the output channel, and resolves the run promise with the
"no result" sentinel; the resolved value does not depend on the worker's
eventual response (the response feeds only the late telemetry record). -/
theorem cancel_clears_and_resolves_none (c : PlaygroundController) (wr : ExecuteAllResult)
    (h : truthyStr c._connectionString = true) :
    evaluateWithCancelModal c true wr =
      Except.ok ((none : ExecuteAllResult),
        [Effect.workerExecuteAll c._codeToEvaluate, Effect.workerCancelAll,
         Effect.outputClear, Effect.outputShow,
         Effect.telemetryTrack wr c._isPartialRun wr.isNone]) ∧
    (∀ wr2 : ExecuteAllResult, ∃ effs,
      evaluateWithCancelModal c true wr2 = Except.ok ((none : ExecuteAllResult), effs)) := by
  constructor
  · simp [evaluateWithCancelModal, h]
  · intro wr2
    exact ⟨[Effect.workerExecuteAll c._codeToEvaluate, Effect.workerCancelAll,
            Effect.outputClear, Effect.outputShow,
            Effect.telemetryTrack wr2 c._isPartialRun wr2.isNone],
      by simp [evaluateWithCancelModal, h]⟩

theorem cancel_clears_and_resolves_none_witness :
    truthyStr cW._connectionString = true ∧
    evaluateWithCancelModal cW true (some [{ content := "1" }]) =
      Except.ok ((none : ExecuteAllResult),
        [Effect.workerExecuteAll "1+1", Effect.workerCancelAll,
         Effect.outputClear, Effect.outputShow,
         Effect.telemetryTrack (some [{ content := "1" }]) false false]) :=
  ⟨by decide, (cancel_clears_and_resolves_none cW (some [{ content := "1" }]) (by decide)).1⟩

/-- Splitting a trace splits the output-surface fold. -/
theorem runOutput_append (s : List String) (a b : List Effect) :
    runOutput s (a ++ b) = runOutput (runOutput s a) b := by
  simp only [runOutput, List.foldl_append]

/-- Folding the append effects of a record list over a surface appends the
records' contents in order. -/
theorem runOutput_appendLines (records : List ResultRecord) (acc : List String) :
    runOutput acc (records.map (fun r => Effect.outputAppendLine r.content)) =
      acc ++ records.map ResultRecord.content := by
  induction records generalizing acc with
  | nil => simp [runOutput]
  | cons r rs ih =>
    simp only [List.map_cons, runOutput, List.foldl_cons, applyOutput] at *
    rw [ih]
    simp

/-- C4: the result-sink contract of `renderExecuteAllResult`: the "no
result" sentinel leaves the output surface empty; a record list replaces the
surface with exactly the records' contents in order; the clear happens
exactly once per delivered result (never once per record); and the surface
is revealed at the end. -/
theorem render_contract (result : ExecuteAllResult) (prior : List String) :
    (result = none → runOutput prior (renderExecuteAllResult result).2 = []) ∧
    (∀ records, result = some records →
      runOutput prior (renderExecuteAllResult result).2 = records.map ResultRecord.content) ∧
    clearCount (renderExecuteAllResult result).2 = 1 ∧
    (renderExecuteAllResult result).2.getLast? = some Effect.outputShow := by
  have h0 : ∀ records : List ResultRecord,
      List.countP isOutputClear (records.map (fun r => Effect.outputAppendLine r.content)) = 0 := by
    intro records
    induction records with
    | nil => rfl
    | cons r rs ih => simp [List.countP_cons, isOutputClear, ih]
  refine ⟨?_, ?_, ?_, ?_⟩
  · intro h
    subst h
    rfl
  · intro records h
    subst h
    show runOutput prior
      ([Effect.outputClear] ++ records.map (fun r => Effect.outputAppendLine r.content)
        ++ [Effect.outputShow]) = records.map ResultRecord.content
    rw [runOutput_append, runOutput_append]
    rw [show runOutput prior [Effect.outputClear] = [] from rfl]
    rw [runOutput_appendLines]
    rfl
  · cases result with
    | none => rfl
    | some records =>
      show clearCount
        ([Effect.outputClear] ++ records.map (fun r => Effect.outputAppendLine r.content)
          ++ [Effect.outputShow]) = 1
      simp [clearCount, List.countP_append, List.countP_cons, isOutputClear, h0 records]
  · cases result with
    | none => rfl
    | some records =>
      show (([Effect.outputClear] ++ records.map (fun r => Effect.outputAppendLine r.content))
          ++ [Effect.outputShow]).getLast? = some Effect.outputShow
      exact List.getLast?_concat _

theorem render_contract_witness :
    runOutput ["old line"]
      (renderExecuteAllResult (some [{ content := "1" }, { content := "2" }])).2 = ["1", "2"] ∧
    clearCount (renderExecuteAllResult (some [{ content := "1" }, { content := "2" }])).2 = 1 ∧
    runOutput ["1", "2"] (renderExecuteAllResult (none : ExecuteAllResult)).2 = [] :=
  ⟨(render_contract (some [{ content := "1" }, { content := "2" }]) ["old line"]).2.1 _ rfl,
   (render_contract (some [{ content := "1" }, { content := "2" }]) ["old line"]).2.2.1,
   (render_contract (none : ExecuteAllResult) ["1", "2"]).1 rfl⟩

/-- C5: the resolved partial-run text is click-order independent: for any
selection list, if `sorted` is the same multiset of selections arranged in
strictly ascending start-line order, the text the selection handler resolves
equals the sorted selections' texts joined by a newline. -/
theorem resolvedText_sorted_by_startLine (c : PlaygroundController)
    (sels sorted : List Selection)
    (hperm : List.Perm sels sorted)
    (hsorted : List.Sorted selectionLt sorted) :
    resolveSelectedText c sels =
      String.intercalate "\n" (sorted.map (fun item => c.getSelectedText item)) := by
  have h1 : List.Perm (sortSelections sels) sorted :=
    (List.perm_insertionSort selectionLe sels).trans hperm
  have hs1 : List.Sorted selectionLe (sortSelections sels) :=
    List.sorted_insertionSort selectionLe sels
  have hne : List.Pairwise (fun a b : Selection => a.start.line ≠ b.start.line) sorted :=
    List.Pairwise.imp (fun h => Nat.ne_of_lt h) hsorted
  have hne1 : List.Pairwise (fun a b : Selection => a.start.line ≠ b.start.line)
      (sortSelections sels) :=
    (h1.pairwise_iff (fun h => Ne.symm h)).mpr hne
  have hlt : List.Sorted selectionLt (sortSelections sels) :=
    List.Pairwise.imp (fun h => Nat.lt_of_le_of_ne h.1 h.2) (List.Pairwise.and hs1 hne1)
  have heq : sortSelections sels = sorted :=
    List.eq_of_perm_of_sorted h1 hlt hsorted
  unfold resolveSelectedText
  rw [heq]

theorem resolvedText_sorted_by_startLine_witness :
    List.Perm [selLine5, selLine2] [selLine2, selLine5] ∧
    List.Sorted selectionLt [selLine2, selLine5] ∧
    resolveSelectedText cW [selLine5, selLine2] =
      String.intercalate "\n" ([selLine2, selLine5].map (fun item => cW.getSelectedText item)) ∧
    resolveSelectedText cW [selLine5, selLine2] = "db.a.find()\ndb.b.find()" :=
  ⟨by decide, by decide,
   resolvedText_sorted_by_startLine cW [selLine5, selLine2] [selLine2, selLine5]
     (by decide) (by decide),
   by decide⟩

/-- C6: with confirmation enabled and the user answering anything but `Yes`,
the run resolves `false` right after the modal prompt — no worker dispatch,
no telemetry record, no output mutation; and the modal prompt is shown only
when the `confirmRunAll` flag is `true`. -/
theorem decline_confirmation_aborts_silently (c : PlaygroundController) (env : RunEnv) :
    (truthyStr c._connectionString = true → env.confirmRunAll = true →
      env.confirmResponse ≠ some "Yes" →
      evaluatePlayground c env =
        (some false,
         [Effect.showInformationMessage (confirmationMessage env.activeConnectionName) true]) ∧
      ∀ e ∈ (evaluatePlayground c env).2,
        isWorkerExecuteAll e = false ∧ isTelemetry e = false ∧ mutatesOutput e = false) ∧
    (env.confirmRunAll = false →
      ∀ msg, Effect.showInformationMessage msg true ∉ (evaluatePlayground c env).2) := by
  constructor
  · intro hconn hcf hresp
    have hr : (env.confirmResponse == some "Yes") = false := by
      simp only [beq_eq_false_iff_ne, ne_eq]
      exact hresp
    have he : evaluatePlayground c env =
        (some false,
         [Effect.showInformationMessage (confirmationMessage env.activeConnectionName) true]) := by
      simp [evaluatePlayground, hconn, hcf, hr]
    refine ⟨he, ?_⟩
    rw [he]
    intro e he2
    simp only [List.mem_singleton] at he2
    subst he2
    exact ⟨rfl, rfl, rfl⟩
  · intro hcf msg
    cases hconn : truthyStr c._connectionString with
    | false => simp [evaluatePlayground, hconn]
    | true =>
      cases hcan : env.cancelled with
      | true =>
        simp [evaluatePlayground, evaluateWithCancelModal, renderExecuteAllResult,
          hconn, hcf, hcan]
      | false =>
        cases hwr : env.workerResult with
        | none =>
          simp [evaluatePlayground, evaluateWithCancelModal, PlaygroundController.evaluate,
            renderExecuteAllResult, hconn, hcf, hcan, hwr]
        | some records =>
          simp [evaluatePlayground, evaluateWithCancelModal, PlaygroundController.evaluate,
            renderExecuteAllResult, hconn, hcf, hcan, hwr, List.mem_map]

theorem decline_confirmation_aborts_silently_witness :
    truthyStr cW._connectionString = true ∧
    evaluatePlayground cW { envPlain with confirmRunAll := true, confirmResponse := none } =
      (some false,
       [Effect.showInformationMessage (confirmationMessage "localhost") true]) :=
  ⟨by decide,
   ((decline_confirmation_aborts_silently cW
       { envPlain with confirmRunAll := true, confirmResponse := none }).1
     (by decide) (by decide) (by decide)).1⟩

/-- C7: the code-lens (affordance) placement rule of
`showCodeLensForSelection`: writing `st` for the trimmed text of the given
range and `ll` for the trimmed full text of the line the range ends on, if
`st` is non-empty and at least as long as `ll` the lens is placed at the
start line of the first selection in ascending start-line order; otherwise
the lens is cleared. -/
theorem codeLens_placement_rule (c : PlaygroundController) (e : Editor) (item : Selection)
    (fst : Selection) (rest : List Selection)
    (he : c._activeTextEditor = some e)
    (hsort : sortSelections e.selections = fst :: rest) :
    ((jsTrim (c.getSelectedText item)).length > 0 ∧
      (jsTrim (c.getSelectedText item)).length ≥
        (jsTrim (e.document.lineAt item.«end».line)).length →
      c.showCodeLensForSelection item = Effect.codeLensRefresh (some fst.start.line)) ∧
    (¬ ((jsTrim (c.getSelectedText item)).length > 0 ∧
      (jsTrim (c.getSelectedText item)).length ≥
        (jsTrim (e.document.lineAt item.«end».line)).length) →
      c.showCodeLensForSelection item = Effect.codeLensRefresh none) := by
  constructor
  · rintro ⟨h1, h2⟩
    simp [PlaygroundController.showCodeLensForSelection, he, hsort, h1, h2]
  · intro h
    simp [PlaygroundController.showCodeLensForSelection, he, hsort]
    intro h1
    by_contra h2
    exact h ⟨h1, Nat.le_of_not_lt h2⟩

theorem codeLens_placement_rule_witness :
    cW._activeTextEditor = some edW ∧
    sortSelections edW.selections = [selLine2, selLine5] ∧
    (jsTrim (cW.getSelectedText selLine5)).length > 0 ∧
    (jsTrim (cW.getSelectedText selLine5)).length ≥
      (jsTrim (edW.document.lineAt selLine5.«end».line)).length ∧
    cW.showCodeLensForSelection selLine5 = Effect.codeLensRefresh (some selLine2.start.line) :=
  ⟨by decide, by decide, by decide, by decide,
   (codeLens_placement_rule cW edW selLine5 selLine2 [selLine5] (by decide) (by decide)).1
     ⟨by decide, by decide⟩⟩

/-- C10: a partial run triggered while selections exist (the single-empty
guard fails) but the stored `_selectedText` is falsy (absent or empty) takes
neither update branch: both run entry points leave `_codeToEvaluate` and
`_isPartialRun` at their previous values and hand the unchanged state to
`evaluatePlayground` — which, when the run is dispatched, sends the
previously stored code to the worker. -/
theorem storedCode_frame_preserved (c : PlaygroundController) (e : Editor)
    (env : RunEnv)
    (he : c._activeTextEditor = some e)
    (hlang : e.document.languageId = "mongodb")
    (hnse : singleEmptySelection c e.selections = false)
    (hsel : truthyStr c._selectedText = false) :
    runAllOrSelectedPlaygroundBlocks c env =
      ((evaluatePlayground c env).1, c, (evaluatePlayground c env).2) ∧
    runSelectedPlaygroundBlocks c env =
      ((evaluatePlayground c env).1, c, (evaluatePlayground c env).2) ∧
    (runAllOrSelectedPlaygroundBlocks c env).2.1._codeToEvaluate = c._codeToEvaluate ∧
    (runAllOrSelectedPlaygroundBlocks c env).2.1._isPartialRun = c._isPartialRun ∧
    (truthyStr c._connectionString = true → env.confirmRunAll = false →
      env.cancelled = false →
      Effect.workerExecuteAll c._codeToEvaluate ∈ (runAllOrSelectedPlaygroundBlocks c env).2.2) := by
  have hopen : noPlaygroundOpen c = false := by
    simp [noPlaygroundOpen, he, hlang]
  have hall : runAllOrSelectedPlaygroundBlocks c env =
      ((evaluatePlayground c env).1, c, (evaluatePlayground c env).2) := by
    simp [runAllOrSelectedPlaygroundBlocks, hopen, he, hnse, hsel]
  have hselr : runSelectedPlaygroundBlocks c env =
      ((evaluatePlayground c env).1, c, (evaluatePlayground c env).2) := by
    simp [runSelectedPlaygroundBlocks, hopen, he, hnse, hsel]
  refine ⟨hall, hselr, by rw [hall], by rw [hall], ?_⟩
  intro hconn hcf hcan
  rw [hall]
  cases hwr : env.workerResult with
  | none =>
    simp [evaluatePlayground, evaluateWithCancelModal, PlaygroundController.evaluate,
      renderExecuteAllResult, hconn, hcf, hcan, hwr]
  | some records =>
    simp [evaluatePlayground, evaluateWithCancelModal, PlaygroundController.evaluate,
      renderExecuteAllResult, hconn, hcf, hcan, hwr]

theorem storedCode_frame_preserved_witness :
    ({ cW with _selectedText := some "" } : PlaygroundController)._activeTextEditor = some edW ∧
    edW.document.languageId = "mongodb" ∧
    singleEmptySelection { cW with _selectedText := some "" } edW.selections = false ∧
    truthyStr ({ cW with _selectedText := some "" } : PlaygroundController)._selectedText = false ∧
    Effect.workerExecuteAll "1+1" ∈
      (runAllOrSelectedPlaygroundBlocks { cW with _selectedText := some "" } envPlain).2.2 :=
  ⟨by decide, by decide, by decide, by decide,
   (storedCode_frame_preserved { cW with _selectedText := some "" } edW envPlain
       (by decide) (by decide) (by decide) (by decide)).2.2.2.2
     (by decide) (by decide) (by decide)⟩

/-! ## C1: the single-flight invariant

`evaluatePlayground` consults no in-flight marker — `PlaygroundController`
has no such field, and a run mutates no controller field between its worker
dispatch and its completion — so a run request arriving while a run is
awaiting the worker observes the same controller state, and the JS event
loop can run it to completion inside the first run's await window. -/

/-- The effects of the synchronous prefix of an accepted run with
confirmation disabled and no cancellation: the worker dispatch, after which
`evaluatePlayground` suspends awaiting the worker. -/
def acceptedRunDispatchEffects (c : PlaygroundController) : List Effect :=
  [Effect.workerExecuteAll c._codeToEvaluate]

/-- The effects of the rest of such a run once the worker responds:
telemetry, then rendering. -/
def acceptedRunCompletionEffects (c : PlaygroundController) (wr : ExecuteAllResult) :
    List Effect :=
  Effect.telemetryTrack wr c._isPartialRun wr.isNone :: (renderExecuteAllResult wr).2

/-- An accepted, unconfirmed, uncancelled run's trace is its dispatch prefix
followed by its completion tail. -/
theorem evaluatePlayground_phase_split (c : PlaygroundController) (env : RunEnv)
    (hconn : truthyStr c._connectionString = true)
    (hcf : env.confirmRunAll = false) (hcan : env.cancelled = false) :
    (evaluatePlayground c env).2 =
      acceptedRunDispatchEffects c ++ acceptedRunCompletionEffects c env.workerResult := by
  simp [evaluatePlayground, evaluateWithCancelModal, PlaygroundController.evaluate,
    acceptedRunDispatchEffects, acceptedRunCompletionEffects, hconn, hcf, hcan]

/-- The interleaved effect trace of a second run request arriving while a
first run is awaiting the worker: the first run's dispatch, then the whole
second run (the state it observes is the same `c`, since the first run has
mutated nothing), then the first run's completion. -/
def doubleRunTrace (c : PlaygroundController) (env1 env2 : RunEnv) : List Effect :=
  acceptedRunDispatchEffects c ++ (evaluatePlayground c env2).2
    ++ acceptedRunCompletionEffects c env1.workerResult

/-- No `executeAll` dispatch occurs in a run's completion tail. -/
theorem executeAllCount_completion (c : PlaygroundController) (wr : ExecuteAllResult) :
    executeAllCount (acceptedRunCompletionEffects c wr) = 0 := by
  have h0 : ∀ records : List ResultRecord,
      List.countP isWorkerExecuteAll
        (records.map (fun r => Effect.outputAppendLine r.content)) = 0 := by
    intro records
    induction records with
    | nil => rfl
    | cons r rs ih => simp [List.countP_cons, isWorkerExecuteAll, ih]
  cases wr with
  | none =>
    simp [executeAllCount, acceptedRunCompletionEffects, renderExecuteAllResult,
      List.countP_cons, isWorkerExecuteAll]
  | some records =>
    simp [executeAllCount, acceptedRunCompletionEffects, renderExecuteAllResult,
      List.countP_cons, List.countP_append, isWorkerExecuteAll, h0 records]

/-- C1 counterexample: with a bound connection and confirmation disabled, a
run request arriving while another run is awaiting the worker is not
rejected — it resolves `true`, dispatches `executeAll` itself, and mutates
the output surface, so the interleaved trace carries two worker dispatches
in flight. -/
theorem doubleRun_not_rejected_cex :
    (evaluatePlayground cW envPlain).1 = some true ∧
    Effect.workerExecuteAll "1+1" ∈ (evaluatePlayground cW envPlain).2 ∧
    Effect.outputClear ∈ (evaluatePlayground cW envPlain).2 ∧
    executeAllCount (doubleRunTrace cW envPlain envPlain) = 2 := by
  refine ⟨by decide, by decide, by decide, by decide⟩

/-- C1 amended: the coordinator has no single-flight guard: a run request
received while another run is in flight is processed exactly like an
idle-state request — it dispatches `executeAll` again, so the interleaved
trace contains two worker dispatches. -/
theorem doubleRun_invokes_worker_twice (c : PlaygroundController) (env1 env2 : RunEnv)
    (hconn : truthyStr c._connectionString = true)
    (hcf1 : env1.confirmRunAll = false) (hcan1 : env1.cancelled = false)
    (hcf2 : env2.confirmRunAll = false) (hcan2 : env2.cancelled = false) :
    executeAllCount (doubleRunTrace c env1 env2) = 2 ∧
    Effect.workerExecuteAll c._codeToEvaluate ∈ (evaluatePlayground c env2).2 ∧
    (∃ b, (evaluatePlayground c env2).1 = some b) := by
  have hsplit := evaluatePlayground_phase_split c env2 hconn hcf2 hcan2
  refine ⟨?_, ?_, ?_⟩
  · simp only [doubleRunTrace, hsplit, executeAllCount, List.countP_append]
    have h1 : List.countP isWorkerExecuteAll (acceptedRunDispatchEffects c) = 1 := by
      simp [acceptedRunDispatchEffects, List.countP_cons, isWorkerExecuteAll]
    have h2 : List.countP isWorkerExecuteAll
        (acceptedRunCompletionEffects c env2.workerResult) = 0 := by
      have := executeAllCount_completion c env2.workerResult
      simpa [executeAllCount] using this
    have h3 : List.countP isWorkerExecuteAll
        (acceptedRunCompletionEffects c env1.workerResult) = 0 := by
      have := executeAllCount_completion c env1.workerResult
      simpa [executeAllCount] using this
    simp [h1, h2, h3]
  · rw [hsplit]
    simp [acceptedRunDispatchEffects]
  · cases hwr : env2.workerResult with
    | none =>
      exact ⟨false, by simp [evaluatePlayground, evaluateWithCancelModal,
        PlaygroundController.evaluate, renderExecuteAllResult, hconn, hcf2, hcan2, hwr]⟩
    | some records =>
      exact ⟨true, by simp [evaluatePlayground, evaluateWithCancelModal,
        PlaygroundController.evaluate, renderExecuteAllResult, hconn, hcf2, hcan2, hwr]⟩

theorem doubleRun_invokes_worker_twice_witness :
    truthyStr cW._connectionString = true ∧
    executeAllCount (doubleRunTrace cW envPlain envPlain) = 2 :=
  ⟨by decide,
   (doubleRun_invokes_worker_twice cW envPlain envPlain
      (by decide) (by decide) (by decide) (by decide) (by decide)).1⟩

/-! ## C8: ordering of disconnect and connect on a connection change -/

/-- Whether a connection event is a worker connect request. -/
def isConnectRequested : ConnEvent → Bool
  | ConnEvent.connectRequested _ _ _ => true
  | _ => false

/-- Whether a connection event is a completed worker disconnect. -/
def isDisconnectResolved : ConnEvent → Bool
  | ConnEvent.disconnectResolved _ => true
  | _ => false

/-- Claim C8's ordering property of a rebinding trace: either no connect
request occurs, or some disconnect has completed before the first connect
request is issued. -/
def connectWaitsForDisconnect (tr : List ConnEvent) : Bool :=
  (tr.takeWhile (fun ev => !isConnectRequested ev)).any isDisconnectResolved
    || tr.all (fun ev => !isConnectRequested ev)

/-- The model the connection manager switches to in the rebinding fixtures. -/
def modelNew : ConnectionModel := { driverUrlWithSsh := "mongodb://new", driverOptions := none }

/-- C8 counterexample: on an active-connection change to a new model, the
connect request is issued in the same synchronous dispatch phase as the
disconnect request — before the disconnect completes — under both
promise-resolution schedules, so the trace never satisfies "connect only
after disconnect completes". -/
theorem connect_issued_before_disconnect_resolves_cex :
    (activeConnectionChanged cW (some modelNew) "/ext" true true true).2 =
      [ConnEvent.disconnectRequested,
       ConnEvent.connectRequested "mongodb://new" [] "/ext",
       ConnEvent.disconnectResolved true, ConnEvent.connectResolved true,
       ConnEvent.codeLensRefreshed] ∧
    connectWaitsForDisconnect
      (activeConnectionChanged cW (some modelNew) "/ext" true true true).2 = false ∧
    connectWaitsForDisconnect
      (activeConnectionChanged cW (some modelNew) "/ext" true true false).2 = false := by
  refine ⟨by decide, by decide, by decide⟩

/-- C8 amended: the disconnect request is always issued first, and the
connect request (carrying the new connection string, its driver options, and
the extension path) is issued immediately after it in the same synchronous
phase — not after the disconnect completes. -/
theorem disconnect_requested_before_connect (c : PlaygroundController)
    (m : ConnectionModel) (path : String) (discOk l2Ok sched : Bool)
    (hurl : m.driverUrlWithSsh ≠ "") :
    ∃ rest,
      (activeConnectionChanged c (some m) path discOk l2Ok sched).2 =
        ConnEvent.disconnectRequested
          :: ConnEvent.connectRequested m.driverUrlWithSsh (m.driverOptions.getD []) path
          :: rest := by
  have hb : (m.driverUrlWithSsh == "") = false := by
    simp only [beq_eq_false_iff_ne, ne_eq]
    exact hurl
  cases sched with
  | true =>
    exact ⟨[ConnEvent.disconnectResolved discOk, ConnEvent.connectResolved l2Ok,
            ConnEvent.codeLensRefreshed],
      by simp [activeConnectionChanged, connectToServiceProvider, hb]⟩
  | false =>
    exact ⟨[ConnEvent.connectResolved l2Ok, ConnEvent.codeLensRefreshed,
            ConnEvent.disconnectResolved discOk],
      by simp [activeConnectionChanged, connectToServiceProvider, hb]⟩

theorem disconnect_requested_before_connect_witness :
    modelNew.driverUrlWithSsh ≠ "" ∧
    (∃ rest,
      (activeConnectionChanged cW (some modelNew) "/ext" true true true).2 =
        ConnEvent.disconnectRequested
          :: ConnEvent.connectRequested modelNew.driverUrlWithSsh
               (modelNew.driverOptions.getD []) "/ext"
          :: rest) :=
  ⟨by decide,
   disconnect_requested_before_connect cW modelNew "/ext" true true true (by decide)⟩

/-! ## C9: the coordinator caches the binding instead of re-reading it -/

/-- The binding the manager held at an earlier rebinding in the C9 fixture. -/
def modelOld : ConnectionModel := { driverUrlWithSsh := "mongodb://old", driverOptions := none }

/-- A controller whose cached connection fields were populated by an earlier
`connectToServiceProvider` run against `modelOld`, with partial-run code
`2+2` selected for evaluation. -/
def cStale : PlaygroundController :=
  (connectToServiceProvider
    { cW with _connectionString := none, _connectionOptions := none, _codeToEvaluate := "2+2" }
    (some modelOld) "/ext").1

/-- A run environment in which the binding manager currently reports no
active connection at dispatch time. -/
def envUnbound : RunEnv := { envPlain with activeModel := none }

/-- C9 counterexample: the cached `_connectionString` survives from the
earlier binding, and a run while the manager reports no active connection
(`activeModel = none`) still passes the guard and dispatches to the worker —
the binding is not re-read at dispatch, a stale cached binding is used. -/
theorem stale_cached_binding_used_cex :
    cStale._connectionString = some "mongodb://old" ∧
    envUnbound.activeModel = none ∧
    (evaluatePlayground cStale envUnbound).1 = some true ∧
    Effect.workerExecuteAll "2+2" ∈ (evaluatePlayground cStale envUnbound).2 := by
  refine ⟨by decide, by decide, by decide, by decide⟩

/-- C9 amended: the run path never consults the manager's current binding:
a run's outcome and effects are identical for any two manager states at
dispatch time, and the connection guard is decided solely by the cached
`_connectionString` field. -/
theorem run_ignores_manager_binding (c : PlaygroundController) (env : RunEnv)
    (m1 m2 : Option ConnectionModel) :
    evaluatePlayground c { env with activeModel := m1 } =
      evaluatePlayground c { env with activeModel := m2 } ∧
    (truthyStr c._connectionString = false →
      evaluatePlayground c env =
        (some false,
         [Effect.showErrorMessage "Please connect to a database before running a playground."])) := by
  constructor
  · rfl
  · intro h
    simp [evaluatePlayground, h]

theorem run_ignores_manager_binding_witness :
    evaluatePlayground cStale { envPlain with activeModel := none } =
      evaluatePlayground cStale { envPlain with activeModel := some modelNew } ∧
    truthyStr ({ cW with _connectionString := none } : PlaygroundController)._connectionString
      = false ∧
    evaluatePlayground { cW with _connectionString := none } envPlain =
      (some false,
       [Effect.showErrorMessage "Please connect to a database before running a playground."]) :=
  ⟨(run_ignores_manager_binding cStale envPlain none (some modelNew)).1,
   by decide,
   (run_ignores_manager_binding { cW with _connectionString := none } envPlain none none).2
     (by decide)⟩

end Playground
